import Mathlib

/-!
Shallow embedding of the FeedbackFullStack conversation backend
(src/Backend/services/prismaService.js, conversationManager.js,
webhookService.js, utils/messageTemplates.js).

Timestamps are JavaScript epoch milliseconds, modelled as `Int`.
Database state is modelled explicitly and threaded through every
operation; each JS `async` store call becomes a pure function from
database state to database state plus result.  Outbound sends
(`sendTextMessage` / `sendButtonMessage`, the external dispatcher
boundary) are recorded as `(recipient, text)` events in the results.
-/

namespace FeedbackFullStack

/-- Row of the `conversationSession` table (prisma model). -/
structure Session where
  userPhone : String
  step : Nat
  name : Option String
  feedback : Option String
  whatsappImageId : Option String
  profileImageUrl : Option String
  isCompleted : Bool
  createdAt : Int
  lastActivity : Int
deriving DecidableEq, Repr

/-- Row of the `feedback` table (prisma model). -/
structure FeedbackRecord where
  userPhone : String
  name : Option String
  feedback : Option String
  profileImageUrl : Option String
  whatsappImageId : Option String
  imageStoragePath : Option String
  sessionDuration : Option Int
  createdAt : Int
deriving DecidableEq, Repr

/-- The two prisma-backed tables. -/
structure DB where
  sessions : List Session
  feedbacks : List FeedbackRecord
deriving DecidableEq, Repr

/-- JS `x || null` on a string-or-nullish value: the empty string is falsy
and collapses to null. -/
def orNull (o : Option String) : Option String :=
  match o with
  | some s => if s = "" then none else some s
  | none => none

/-- JS `x || null` on a number-or-nullish value: `0` is falsy and collapses
to null. -/
def orNullInt (o : Option Int) : Option Int :=
  match o with
  | some n => if n = 0 then none else some n
  | none => none

/-- JS `String.prototype.toLowerCase`, modelled character-wise so that it
is structurally computable. -/
def jsToLower (s : String) : String := ⟨s.data.map Char.toLower⟩

/-- JS `String.prototype.trim`: strip leading and trailing whitespace,
modelled structurally over the character list. -/
def jsTrim (s : String) : String :=
  ⟨((s.data.dropWhile Char.isWhitespace).reverse.dropWhile Char.isWhitespace).reverse⟩

/-- Payload of `prismaService.saveConversationSession` (the upsert ignores
any caller-supplied timestamps: `lastActivity` is set by the store). -/
structure SessionData where
  userPhone : String
  step : Nat
  name : Option String := none
  feedback : Option String := none
  whatsappImageId : Option String := none
  profileImageUrl : Option String := none
  isCompleted : Bool := false
deriving DecidableEq, Repr

/-- prismaService.getConversationSession: `findUnique` by `userPhone`. -/
def getConversationSession (db : DB) (userPhone : String) : Option Session :=
  db.sessions.find? (fun s => s.userPhone == userPhone)

/-- prismaService.saveConversationSession: upsert keyed on `userPhone`.
The update branch rewrites the stored fields (with JS `|| null` coercions)
and refreshes `lastActivity`; the create branch inserts a new row with
`createdAt` and `lastActivity` set to now. -/
def saveConversationSession (db : DB) (now : Int) (d : SessionData) : DB × Session :=
  match getConversationSession db d.userPhone with
  | some old =>
    let upd : Session :=
      { old with
        step := d.step
        name := orNull d.name
        feedback := orNull d.feedback
        whatsappImageId := orNull d.whatsappImageId
        profileImageUrl := orNull d.profileImageUrl
        lastActivity := now
        isCompleted := d.isCompleted }
    ({ db with sessions := db.sessions.map (fun s => if s.userPhone == d.userPhone then upd else s) }, upd)
  | none =>
    let fresh : Session :=
      { userPhone := d.userPhone
        step := d.step
        name := orNull d.name
        feedback := orNull d.feedback
        whatsappImageId := orNull d.whatsappImageId
        profileImageUrl := orNull d.profileImageUrl
        isCompleted := d.isCompleted
        createdAt := now
        lastActivity := now }
    ({ db with sessions := db.sessions ++ [fresh] }, fresh)

/-- prismaService.deleteConversationSession: delete by `userPhone`
(missing row is tolerated, `P2025` is swallowed). -/
def deleteConversationSession (db : DB) (userPhone : String) : DB :=
  { db with sessions := db.sessions.filter (fun s => !(s.userPhone == userPhone)) }

/-- Payload of `prismaService.saveFeedback`. -/
structure FeedbackData where
  userPhone : String
  name : Option String := none
  feedback : Option String := none
  profileImageUrl : Option String := none
  whatsappImageId : Option String := none
  imageStoragePath : Option String := none
  sessionDuration : Option Int := none
deriving DecidableEq, Repr

/-- prismaService.saveFeedback: `feedback.create` appending one row.
`name` and `feedback` are passed through as given; the remaining optional
fields go through the JS `|| null` coercion. -/
def saveFeedback (db : DB) (now : Int) (d : FeedbackData) : DB × FeedbackRecord :=
  let rec' : FeedbackRecord :=
    { userPhone := d.userPhone
      name := d.name
      feedback := d.feedback
      profileImageUrl := orNull d.profileImageUrl
      whatsappImageId := orNull d.whatsappImageId
      imageStoragePath := orNull d.imageStoragePath
      sessionDuration := orNullInt d.sessionDuration
      createdAt := now }
  ({ db with feedbacks := db.feedbacks ++ [rec'] }, rec')

/-- One hour in milliseconds. -/
def hourMs : Int := 60 * 60 * 1000

/-- prismaService.cleanupExpiredSessions: `deleteMany` of rows with
`lastActivity < now - hoursOld` hours and `isCompleted = false`; returns
the deletion count. -/
def prismaCleanupExpiredSessions (db : DB) (now : Int) (hoursOld : Int) : DB × Nat :=
  let cutoff := now - hoursOld * hourMs
  let keep := db.sessions.filter (fun s => !(decide (s.lastActivity < cutoff) && !s.isCompleted))
  ({ db with sessions := keep }, db.sessions.length - keep.length)

/-- conversationManager: 12-hour session timeout, in milliseconds. -/
def sessionTimeout : Int := 12 * 60 * 60 * 1000

/-- View of a stored session as an upsert payload (the JS code spreads the
session object into `saveConversationSession`; the upsert only reads these
fields). -/
def sessionToData (s : Session) : SessionData :=
  { userPhone := s.userPhone
    step := s.step
    name := s.name
    feedback := s.feedback
    whatsappImageId := s.whatsappImageId
    profileImageUrl := s.profileImageUrl
    isCompleted := s.isCompleted }

/-- conversationManager.createSession: save a fresh step-1 session with all
collected fields null. -/
def createSession (db : DB) (now : Int) (userPhone : String) : DB × Session :=
  saveConversationSession db now
    { userPhone := userPhone
      step := 1
      name := none
      feedback := none
      profileImageUrl := none
      isCompleted := false }

/-- conversationManager.isSessionExpired: strictly more than the timeout
since `lastActivity`. -/
def isSessionExpired (now : Int) (s : Session) : Bool :=
  now - s.lastActivity > sessionTimeout

/-- conversationManager.getSession: expired sessions are deleted and
replaced by a fresh one; a live session has its `lastActivity` refreshed
in the store, and the originally read object is returned. -/
def getSession (db : DB) (now : Int) (userPhone : String) : DB × Session :=
  match getConversationSession db userPhone with
  | some session =>
    if isSessionExpired now session then
      createSession (deleteConversationSession db userPhone) now userPhone
    else
      ((saveConversationSession db now (sessionToData session)).1, session)
  | none => createSession db now userPhone

/-- Field patch applied by `conversationManager.updateSession` (the JS
object spread `{...session, ...updates}`): a field present in the patch
overrides the stored value. -/
structure Updates where
  step : Option Nat := none
  name : Option (Option String) := none
  feedback : Option (Option String) := none
  whatsappImageId : Option (Option String) := none
  profileImageUrl : Option (Option String) := none
deriving DecidableEq, Repr

/-- JS spread `{...session, ...updates}` restricted to the fields the
upsert reads. -/
def mergeUpdates (s : Session) (u : Updates) : SessionData :=
  { userPhone := s.userPhone
    step := u.step.getD s.step
    name := u.name.getD s.name
    feedback := u.feedback.getD s.feedback
    whatsappImageId := u.whatsappImageId.getD s.whatsappImageId
    profileImageUrl := u.profileImageUrl.getD s.profileImageUrl
    isCompleted := s.isCompleted }

/-- conversationManager.updateSession: patch an existing session; on a
missing session it logs an error and falls back to `createSession`,
discarding the patch. -/
def updateSession (db : DB) (now : Int) (userPhone : String) (u : Updates) : DB × Session :=
  match getConversationSession db userPhone with
  | none => createSession db now userPhone
  | some session => saveConversationSession db now (mergeUpdates session u)

/-- conversationManager.advanceStep: `min(step + 1, 4)` on the session
returned by `getSession`. -/
def advanceStep (db : DB) (now : Int) (userPhone : String) : DB × Session :=
  let r := getSession db now userPhone
  updateSession r.1 now userPhone { step := some (min (r.2.step + 1) 4) }

/-- JS `Math.round((now - createdAt) / 1000)` for a non-negative span. -/
def durationSeconds (now createdAt : Int) : Int :=
  (now - createdAt + 500) / 1000

/-- conversationManager.completeSession: on a live session, save one
feedback row, re-save the session as completed, then delete it; on a
missing session, do nothing and return null. -/
def completeSession (db : DB) (now : Int) (userPhone : String) : DB × Option Session :=
  match getConversationSession db userPhone with
  | none => (db, none)
  | some session =>
    let db1 := (saveFeedback db now
      { userPhone := session.userPhone
        name := session.name
        feedback := session.feedback
        profileImageUrl := session.profileImageUrl
        sessionDuration := some (durationSeconds now session.createdAt) }).1
    let db2 := (saveConversationSession db1 now { sessionToData session with isCompleted := true }).1
    (deleteConversationSession db2 userPhone, some session)

/-- conversationManager.cleanupExpiredSessions: delegate to the prisma
cleanup with a 12-hour horizon. -/
def cleanupExpiredSessions (db : DB) (now : Int) : DB × Nat :=
  prismaCleanupExpiredSessions db now 12

/-- conversationManager.resetSession: back to step 1 with cleared fields. -/
def resetSession (db : DB) (now : Int) (userPhone : String) : DB × Session :=
  updateSession db now userPhone
    { step := some 1
      name := some none
      feedback := some none
      profileImageUrl := some none }

/-- Stringification of a possibly-null JS value inside a template
literal (`null` prints as "null"). -/
def jsShow (o : Option String) : String :=
  match o with
  | some s => s
  | none => "null"

/-- utils/messageTemplates.getTemplate: the fixed template table; a
missing key falls back to the `systemError` text.  The keys
`profilePictureYes`, `profilePictureNo` and `profilePictureReceived`
requested by webhookService are not in the table, so they resolve to the
`systemError` text. -/
def getTemplate (key : String) (data : Option String := none) : String :=
  match key with
  | "greeting" => "👋 Hello! Thanks for contacting us. May I know your name?"
  | "nameReceived" => s!"Nice to meet you, {jsShow data}! Please share your feedback or review."
  | "feedbackReceived" => "Got it! Finally, please send your profile picture 📸."
  | "completed" => s!"✅ Thank you, {jsShow data}! Your feedback has been received successfully."
  | "needText" => "Please send a text message."
  | "needImage" => "Please send an image for your profile picture 📸"
  | "sessionExpired" => "Your session has expired. Let's start fresh! 👋 Hello! Thanks for contacting us. May I know your name?"
  | _ => "Sorry, something went wrong. Please try again by sending 'hi'."

/-- WhatsApp inbound message type tag. -/
inductive MsgKind where
  | text
  | image
  | interactive
  | other
deriving DecidableEq, Repr

/-- Inbound webhook message: `sender` is `message.from`; `textBody` is
`message.text.body` when the `text` object is present; `imageId` is
`message.image.id`; `buttonReplyId` is
`message.interactive.button_reply.id`. -/
structure Message where
  sender : String
  kind : MsgKind
  textBody : Option String := none
  imageId : Option String := none
  buttonReplyId : Option String := none
deriving DecidableEq, Repr

/-- Result of handling one inbound message: the database state, the
outbound sends `(recipient, text)` in order, and the detached async
image-upload tasks `(whatsappImageId, userPhone)` that were enqueued. -/
structure HandlerResult where
  db : DB
  sent : List (String × String)
  tasks : List (String × String)
deriving DecidableEq, Repr

/-- webhookService.handleNameCollection (step 1): a non-text message is
answered with the `needText` guidance and nothing changes; a text message
stores the trimmed body as `name`, advances the step, and asks the
profile-picture question (sent as a button message). -/
def handleNameCollection (db : DB) (now : Int) (msg : Message) (userPhone : String) : HandlerResult :=
  match msg.kind, msg.textBody with
  | .text, some body =>
    let name := jsTrim body
    let db1 := (updateSession db now userPhone { name := some (some name) }).1
    let db2 := (advanceStep db1 now userPhone).1
    { db := db2
      sent := [(userPhone, s!"Nice to meet you, {name}! Are you ready to share your profile picture?")]
      tasks := [] }
  | _, _ =>
    { db := db, sent := [(userPhone, getTemplate "needText")], tasks := [] }

/-- webhookService.handleYesNoChoice (step 2): a button reply or a text
body yields a choice; anything else is answered with the button/text
guidance.  "yes"/"y" advances to step 3; "no"/"n" jumps to step 4; any
other choice re-prompts with the buttons. -/
def handleYesNoChoice (db : DB) (now : Int) (msg : Message) (userPhone : String)
    (session : Session) : HandlerResult :=
  let choice? : Option String :=
    match msg.kind, msg.buttonReplyId, msg.textBody with
    | .interactive, some id, _ => some (jsToLower id)
    | .text, _, some body => some (jsTrim (jsToLower body))
    | _, _, _ => none
  match choice? with
  | none =>
    { db := db
      sent := [(userPhone, "Please click one of the buttons or reply with \"Yes\" or \"No\".")]
      tasks := [] }
  | some choice =>
    if choice = "yes" ∨ choice = "y" then
      let db1 := (advanceStep db now userPhone).1
      { db := db1, sent := [(userPhone, getTemplate "profilePictureYes")], tasks := [] }
    else if choice = "no" ∨ choice = "n" then
      let db1 := (updateSession db now userPhone { step := some 4 }).1
      { db := db1, sent := [(userPhone, getTemplate "profilePictureNo" session.name)], tasks := [] }
    else
      { db := db, sent := [(userPhone, "Please choose one of the options:")], tasks := [] }

/-- webhookService.handleImageCollection (step 3): a non-image message is
answered with the `needImage` guidance and nothing changes; an image
stores its WhatsApp id, nulls `profileImageUrl`, advances the step, sends
the `profilePictureReceived` template, and enqueues the detached upload
task. -/
def handleImageCollection (db : DB) (now : Int) (msg : Message) (userPhone : String) : HandlerResult :=
  match msg.kind, msg.imageId with
  | .image, some whatsappImageId =>
    let db1 := (updateSession db now userPhone
      { whatsappImageId := some (some whatsappImageId)
        profileImageUrl := some none }).1
    let db2 := (advanceStep db1 now userPhone).1
    { db := db2
      sent := [(userPhone, getTemplate "profilePictureReceived")]
      tasks := [(whatsappImageId, userPhone)] }
  | _, _ =>
    { db := db, sent := [(userPhone, getTemplate "needImage")], tasks := [] }

/-- webhookService.handleFeedbackCollection (step 4): a non-text message
is answered with the `needText` guidance; a text stores the trimmed body
as `feedback`, completes the session, and sends the completion message
with the name from the session as read at dispatch time. -/
def handleFeedbackCollection (db : DB) (now : Int) (msg : Message) (userPhone : String)
    (session : Session) : HandlerResult :=
  match msg.kind, msg.textBody with
  | .text, some body =>
    let feedback := jsTrim body
    let db1 := (updateSession db now userPhone { feedback := some (some feedback) }).1
    let db2 := (completeSession db1 now userPhone).1
    { db := db2, sent := [(userPhone, getTemplate "completed" session.name)], tasks := [] }
  | _, _ =>
    { db := db, sent := [(userPhone, getTemplate "needText")], tasks := [] }

/-- The reserved start trigger recognised by
webhookService.handleIncomingMessage. -/
def startKeyword : String := "share your thoughts"

/-- webhookService.handleIncomingMessage (success path, no store
failures): the reserved keyword short-circuits to a fresh session and the
greeting; otherwise the session is read (or created) and the message is
dispatched on its step; an out-of-range step resets the session and sends
the greeting. -/
def handleIncomingMessage (db : DB) (now : Int) (msg : Message) : HandlerResult :=
  let keywordHit : Bool :=
    match msg.kind, msg.textBody with
    | .text, some body => jsTrim (jsToLower body) == startKeyword
    | _, _ => false
  if keywordHit then
    let db1 := (createSession db now msg.sender).1
    { db := db1, sent := [(msg.sender, getTemplate "greeting")], tasks := [] }
  else
    let r := getSession db now msg.sender
    match r.2.step with
    | 1 => handleNameCollection r.1 now msg msg.sender
    | 2 => handleYesNoChoice r.1 now msg msg.sender r.2
    | 3 => handleImageCollection r.1 now msg msg.sender
    | 4 => handleFeedbackCollection r.1 now msg msg.sender r.2
    | _ =>
      let db2 := (resetSession r.1 now msg.sender).1
      { db := db2, sent := [(msg.sender, getTemplate "greeting")], tasks := [] }

/-- Outcome of the supabase upload attempted by the detached pipeline. -/
inductive UploadResult where
  | success (publicUrl : String)
  | failure (err : String)
deriving DecidableEq, Repr

/-- webhookService.processImageUploadAsync: on upload success the live
session is patched with the public URL; on upload failure it is patched
with an `error:` marker.  Records are not touched. -/
def processImageUploadAsync (db : DB) (now : Int) (userPhone : String)
    (r : UploadResult) : DB × Session :=
  match r with
  | .success publicUrl =>
    updateSession db now userPhone { profileImageUrl := some (some publicUrl) }
  | .failure err =>
    updateSession db now userPhone { profileImageUrl := some (some ("error: " ++ err)) }

/-!
Fallible embedding.  Every prisma store call may throw; the JS try/catch
in `handleIncomingMessage` converts a throw into the generic apology.
`fuel` counts the store operations that still succeed: the `fuel + 1`-st
store call throws.  A throw aborts the rest of the computation but keeps
all database writes already performed (the store has no transaction
around one inbound event). -/

/-- State threaded through a fallible run: database, remaining successful
store operations, and outbound sends so far. -/
structure FSt where
  db : DB
  fuel : Nat
  sent : List (String × String)
deriving DecidableEq, Repr

/-- Fallible computation: state in, state out, `none` when a store call
threw. -/
def FM (α : Type) := FSt → FSt × Option α

instance : Monad FM where
  pure a := fun s => (s, some a)
  bind m f := fun s =>
    match m s with
    | (s1, some a) => f a s1
    | (s1, none) => (s1, none)

/-- One prisma store call: throws when the fuel is exhausted, otherwise
consumes one unit and performs the operation. -/
def storeOp {α : Type} (f : DB → DB × α) : FM α := fun s =>
  if s.fuel = 0 then (s, none)
  else
    let (db1, a) := f s.db
    ({ s with db := db1, fuel := s.fuel - 1 }, some a)

/-- Outbound send (dispatcher boundary, not a store call): recorded,
never throws. -/
def sendTextF (recipient text : String) : FM Unit := fun s =>
  ({ s with sent := s.sent ++ [(recipient, text)] }, some ())

/-- prismaService.getConversationSession, fallible. -/
def getConversationSessionF (userPhone : String) : FM (Option Session) :=
  storeOp (fun db => (db, getConversationSession db userPhone))

/-- prismaService.saveConversationSession, fallible. -/
def saveConversationSessionF (now : Int) (d : SessionData) : FM Session :=
  storeOp (fun db => saveConversationSession db now d)

/-- prismaService.deleteConversationSession, fallible. -/
def deleteConversationSessionF (userPhone : String) : FM Unit :=
  storeOp (fun db => (deleteConversationSession db userPhone, ()))

/-- prismaService.saveFeedback, fallible. -/
def saveFeedbackF (now : Int) (d : FeedbackData) : FM FeedbackRecord :=
  storeOp (fun db => saveFeedback db now d)

/-- conversationManager.createSession, fallible. -/
def createSessionF (now : Int) (userPhone : String) : FM Session :=
  saveConversationSessionF now
    { userPhone := userPhone
      step := 1
      name := none
      feedback := none
      profileImageUrl := none
      isCompleted := false }

/-- conversationManager.getSession, fallible. -/
def getSessionF (now : Int) (userPhone : String) : FM Session := do
  let s? ← getConversationSessionF userPhone
  match s? with
  | some session =>
    if isSessionExpired now session then do
      deleteConversationSessionF userPhone
      createSessionF now userPhone
    else do
      let _ ← saveConversationSessionF now (sessionToData session)
      pure session
  | none => createSessionF now userPhone

/-- conversationManager.updateSession, fallible. -/
def updateSessionF (now : Int) (userPhone : String) (u : Updates) : FM Session := do
  let s? ← getConversationSessionF userPhone
  match s? with
  | none => createSessionF now userPhone
  | some session => saveConversationSessionF now (mergeUpdates session u)

/-- conversationManager.advanceStep, fallible. -/
def advanceStepF (now : Int) (userPhone : String) : FM Session := do
  let session ← getSessionF now userPhone
  updateSessionF now userPhone { step := some (min (session.step + 1) 4) }

/-- conversationManager.completeSession, fallible. -/
def completeSessionF (now : Int) (userPhone : String) : FM (Option Session) := do
  let s? ← getConversationSessionF userPhone
  match s? with
  | none => pure none
  | some session => do
    let _ ← saveFeedbackF now
      { userPhone := session.userPhone
        name := session.name
        feedback := session.feedback
        profileImageUrl := session.profileImageUrl
        sessionDuration := some (durationSeconds now session.createdAt) }
    let _ ← saveConversationSessionF now { sessionToData session with isCompleted := true }
    deleteConversationSessionF userPhone
    pure (some session)

/-- conversationManager.resetSession, fallible. -/
def resetSessionF (now : Int) (userPhone : String) : FM Session :=
  updateSessionF now userPhone
    { step := some 1
      name := some none
      feedback := some none
      profileImageUrl := some none }

/-- webhookService.handleNameCollection, fallible. -/
def handleNameCollectionF (now : Int) (msg : Message) (userPhone : String) : FM Unit := do
  match msg.kind, msg.textBody with
  | .text, some body =>
    let name := jsTrim body
    let _ ← updateSessionF now userPhone { name := some (some name) }
    let _ ← advanceStepF now userPhone
    sendTextF userPhone s!"Nice to meet you, {name}! Are you ready to share your profile picture?"
  | _, _ => sendTextF userPhone (getTemplate "needText")

/-- webhookService.handleYesNoChoice, fallible. -/
def handleYesNoChoiceF (now : Int) (msg : Message) (userPhone : String)
    (session : Session) : FM Unit := do
  let choice? : Option String :=
    match msg.kind, msg.buttonReplyId, msg.textBody with
    | .interactive, some id, _ => some (jsToLower id)
    | .text, _, some body => some (jsTrim (jsToLower body))
    | _, _, _ => none
  match choice? with
  | none => sendTextF userPhone "Please click one of the buttons or reply with \"Yes\" or \"No\"."
  | some choice =>
    if choice = "yes" ∨ choice = "y" then do
      let _ ← advanceStepF now userPhone
      sendTextF userPhone (getTemplate "profilePictureYes")
    else if choice = "no" ∨ choice = "n" then do
      let _ ← updateSessionF now userPhone { step := some 4 }
      sendTextF userPhone (getTemplate "profilePictureNo" session.name)
    else
      sendTextF userPhone "Please choose one of the options:"

/-- webhookService.handleImageCollection, fallible (the detached upload
task is enqueued after the synchronous part and plays no role in the
store-failure analysis). -/
def handleImageCollectionF (now : Int) (msg : Message) (userPhone : String) : FM Unit := do
  match msg.kind, msg.imageId with
  | .image, some whatsappImageId =>
    let _ ← updateSessionF now userPhone
      { whatsappImageId := some (some whatsappImageId)
        profileImageUrl := some none }
    let _ ← advanceStepF now userPhone
    sendTextF userPhone (getTemplate "profilePictureReceived")
  | _, _ => sendTextF userPhone (getTemplate "needImage")

/-- webhookService.handleFeedbackCollection, fallible. -/
def handleFeedbackCollectionF (now : Int) (msg : Message) (userPhone : String)
    (session : Session) : FM Unit := do
  match msg.kind, msg.textBody with
  | .text, some body =>
    let feedback := jsTrim body
    let _ ← updateSessionF now userPhone { feedback := some (some feedback) }
    let _ ← completeSessionF now userPhone
    sendTextF userPhone (getTemplate "completed" session.name)
  | _, _ => sendTextF userPhone (getTemplate "needText")

/-- webhookService.handleIncomingMessage body, fallible (the part inside
the try block). -/
def handleIncomingMessageF (now : Int) (msg : Message) : FM Unit := do
  let keywordHit : Bool :=
    match msg.kind, msg.textBody with
    | .text, some body => jsTrim (jsToLower body) == startKeyword
    | _, _ => false
  if keywordHit then do
    let _ ← createSessionF now msg.sender
    sendTextF msg.sender (getTemplate "greeting")
  else do
    let session ← getSessionF now msg.sender
    match session.step with
    | 1 => handleNameCollectionF now msg msg.sender
    | 2 => handleYesNoChoiceF now msg msg.sender session
    | 3 => handleImageCollectionF now msg msg.sender
    | 4 => handleFeedbackCollectionF now msg msg.sender session
    | _ => do
      let _ ← resetSessionF now msg.sender
      sendTextF msg.sender (getTemplate "greeting")

/-- webhookService.handleIncomingMessage with its catch block: a store
throw is answered with the `systemError` apology; the boolean reports
whether the event was handled without a throw. -/
def handleIncomingMessageTop (db : DB) (fuel : Nat) (now : Int) (msg : Message) : FSt × Bool :=
  match handleIncomingMessageF now msg { db := db, fuel := fuel, sent := [] } with
  | (s, some _) => (s, true)
  | (s, none) => ({ s with sent := s.sent ++ [(msg.sender, getTemplate "systemError")] }, false)

/-! Store lemmas. -/

lemma userPhone_of_found {db : DB} {phone : String} {s : Session}
    (h : getConversationSession db phone = some s) : s.userPhone = phone := by
  simp only [getConversationSession] at h
  simpa using List.find?_some h

lemma find?_map_replace (p : Session → Bool) (upd : Session) (hupd : p upd = true) :
    ∀ l : List Session, (l.find? p).isSome →
      (l.map (fun s => if p s then upd else s)).find? p = some upd := by
  intro l
  induction l with
  | nil => simp
  | cons a t ih =>
    intro hsome
    cases hpa : p a with
    | true => simp [hpa, hupd]
    | false =>
      have h1 : (List.find? p t).isSome := by
        simpa [List.find?_cons, hpa] using hsome
      simpa [List.map_cons, hpa, List.find?_cons] using ih h1

lemma getConversationSession_save (db : DB) (now : Int) (d : SessionData) :
    getConversationSession (saveConversationSession db now d).1 d.userPhone
      = some (saveConversationSession db now d).2 := by
  unfold saveConversationSession
  cases h : getConversationSession db d.userPhone with
  | some old =>
    have ho : old.userPhone = d.userPhone := userPhone_of_found h
    have h' := h
    simp only [getConversationSession] at h'
    simp only [getConversationSession]
    apply find?_map_replace
    · simp [ho]
    · simp [h']
  | none =>
    have h' := h
    simp only [getConversationSession] at h'
    simp [getConversationSession, List.find?_append, h']

lemma save_step (db : DB) (now : Int) (d : SessionData) :
    (saveConversationSession db now d).2.step = d.step := by
  unfold saveConversationSession
  cases h : getConversationSession db d.userPhone <;> simp

lemma save_name (db : DB) (now : Int) (d : SessionData) :
    (saveConversationSession db now d).2.name = orNull d.name := by
  unfold saveConversationSession
  cases h : getConversationSession db d.userPhone <;> simp

lemma save_feedback_field (db : DB) (now : Int) (d : SessionData) :
    (saveConversationSession db now d).2.feedback = orNull d.feedback := by
  unfold saveConversationSession
  cases h : getConversationSession db d.userPhone <;> simp

lemma save_whatsappImageId (db : DB) (now : Int) (d : SessionData) :
    (saveConversationSession db now d).2.whatsappImageId = orNull d.whatsappImageId := by
  unfold saveConversationSession
  cases h : getConversationSession db d.userPhone <;> simp

lemma save_profileImageUrl (db : DB) (now : Int) (d : SessionData) :
    (saveConversationSession db now d).2.profileImageUrl = orNull d.profileImageUrl := by
  unfold saveConversationSession
  cases h : getConversationSession db d.userPhone <;> simp

lemma save_isCompleted (db : DB) (now : Int) (d : SessionData) :
    (saveConversationSession db now d).2.isCompleted = d.isCompleted := by
  unfold saveConversationSession
  cases h : getConversationSession db d.userPhone <;> simp

lemma save_lastActivity (db : DB) (now : Int) (d : SessionData) :
    (saveConversationSession db now d).2.lastActivity = now := by
  unfold saveConversationSession
  cases h : getConversationSession db d.userPhone <;> simp

lemma save_userPhone (db : DB) (now : Int) (d : SessionData) :
    (saveConversationSession db now d).2.userPhone = d.userPhone := by
  unfold saveConversationSession
  cases h : getConversationSession db d.userPhone with
  | some old => simpa using userPhone_of_found h
  | none => simp

lemma save_feedbacks (db : DB) (now : Int) (d : SessionData) :
    (saveConversationSession db now d).1.feedbacks = db.feedbacks := by
  unfold saveConversationSession
  cases h : getConversationSession db d.userPhone <;> simp

lemma delete_feedbacks (db : DB) (phone : String) :
    (deleteConversationSession db phone).feedbacks = db.feedbacks := rfl

lemma getConversationSession_delete (db : DB) (phone : String) :
    getConversationSession (deleteConversationSession db phone) phone = none := by
  simp only [getConversationSession, deleteConversationSession]
  rw [List.find?_eq_none]
  intro x hx
  rw [List.mem_filter] at hx
  simpa using hx.2

lemma orNull_idem (o : Option String) : orNull (orNull o) = orNull o := by
  cases o with
  | none => rfl
  | some s =>
    by_cases h : s = "" <;> simp [orNull, h]

lemma updateSession_of_found {db : DB} {phone : String} {s : Session} (now : Int) (u : Updates)
    (h : getConversationSession db phone = some s) :
    updateSession db now phone u = saveConversationSession db now (mergeUpdates s u) := by
  unfold updateSession
  rw [h]

lemma getSession_of_none {db : DB} {phone : String} (now : Int)
    (h : getConversationSession db phone = none) :
    getSession db now phone = createSession db now phone := by
  unfold getSession
  rw [h]

lemma getSession_of_expired {db : DB} {phone : String} {s : Session} {now : Int}
    (h : getConversationSession db phone = some s)
    (hexp : isSessionExpired now s = true) :
    getSession db now phone
      = createSession (deleteConversationSession db phone) now phone := by
  unfold getSession
  rw [h]
  simp [hexp]

lemma getSession_of_live {db : DB} {phone : String} {s : Session} {now : Int}
    (h : getConversationSession db phone = some s)
    (hexp : isSessionExpired now s = false) :
    getSession db now phone
      = ((saveConversationSession db now (sessionToData s)).1, s) := by
  unfold getSession
  rw [h]
  simp [hexp]

lemma getSession_find (db : DB) (now : Int) (phone : String) :
    ∃ σ, getConversationSession (getSession db now phone).1 phone = some σ ∧
      σ.step = (getSession db now phone).2.step ∧
      σ.userPhone = phone := by
  cases h : getConversationSession db phone with
  | none =>
    rw [getSession_of_none now h]
    exact ⟨_, getConversationSession_save db now _, rfl, save_userPhone ..⟩
  | some s =>
    cases hexp : isSessionExpired now s with
    | true =>
      rw [getSession_of_expired h hexp]
      exact ⟨_, getConversationSession_save _ now _, rfl, save_userPhone ..⟩
    | false =>
      rw [getSession_of_live h hexp]
      have hph : s.userPhone = phone := userPhone_of_found h
      have hfind := getConversationSession_save db now (sessionToData s)
      rw [show (sessionToData s).userPhone = phone from hph] at hfind
      exact ⟨_, hfind, by rw [save_step]; rfl, by rw [save_userPhone]; exact hph⟩

lemma advanceStep_spec (db : DB) (now : Int) (phone : String) :
    getConversationSession (advanceStep db now phone).1 phone
        = some (advanceStep db now phone).2 ∧
      (advanceStep db now phone).2.step
        = min ((getSession db now phone).2.step + 1) 4 := by
  obtain ⟨σ1, hfind, hstep, hphone⟩ := getSession_find db now phone
  unfold advanceStep
  rw [updateSession_of_found now _ hfind]
  constructor
  · have := getConversationSession_save (getSession db now phone).1 now
      (mergeUpdates σ1 { step := some (min ((getSession db now phone).2.step + 1) 4) })
    simpa [mergeUpdates, hphone] using this
  · rw [save_step]
    simp [mergeUpdates]

lemma createSession_feedbacks (db : DB) (now : Int) (phone : String) :
    (createSession db now phone).1.feedbacks = db.feedbacks := by
  unfold createSession
  exact save_feedbacks ..

lemma updateSession_feedbacks (db : DB) (now : Int) (phone : String) (u : Updates) :
    (updateSession db now phone u).1.feedbacks = db.feedbacks := by
  unfold updateSession
  cases h : getConversationSession db phone <;>
    simp [createSession_feedbacks, save_feedbacks]

lemma getSession_feedbacks (db : DB) (now : Int) (phone : String) :
    (getSession db now phone).1.feedbacks = db.feedbacks := by
  cases h : getConversationSession db phone with
  | none =>
    rw [getSession_of_none now h, createSession_feedbacks]
  | some s =>
    cases hexp : isSessionExpired now s with
    | true =>
      rw [getSession_of_expired h hexp, createSession_feedbacks, delete_feedbacks]
    | false =>
      rw [getSession_of_live h hexp]
      exact save_feedbacks ..

lemma advanceStep_feedbacks (db : DB) (now : Int) (phone : String) :
    (advanceStep db now phone).1.feedbacks = db.feedbacks := by
  unfold advanceStep
  rw [updateSession_feedbacks, getSession_feedbacks]

/-! Claim theorems. -/

/-- C9: `advanceStep` sets the step of the stored and returned session to
`min(step + 1, 4)` of the session read by `getSession`; hence no advance
ever yields a step above 4, and a session already at step 4 stays at 4. -/
theorem c9_advanceStep_caps_at_four (db : DB) (now : Int) (phone : String) :
    (advanceStep db now phone).2.step
        = min ((getSession db now phone).2.step + 1) 4 ∧
    getConversationSession (advanceStep db now phone).1 phone
        = some (advanceStep db now phone).2 ∧
    (advanceStep db now phone).2.step ≤ 4 ∧
    ((getSession db now phone).2.step = 4 → (advanceStep db now phone).2.step = 4) := by
  obtain ⟨hfind, hstep⟩ := advanceStep_spec db now phone
  refine ⟨hstep, hfind, ?_, ?_⟩
  · rw [hstep]
    exact Nat.min_le_right _ _
  · intro h4
    rw [hstep, h4]
    decide

/-- A database holding one live step-4 session for user "u". -/
def dbStep4 : DB :=
  { sessions := [{ userPhone := "u", step := 4, name := some "Alice",
                   feedback := none, whatsappImageId := none,
                   profileImageUrl := none, isCompleted := false,
                   createdAt := 0, lastActivity := 0 }]
    feedbacks := [] }

/-- C9 witness: advancing the step-4 session of `dbStep4` leaves it at 4. -/
theorem c9_witness :
    (getSession dbStep4 0 "u").2.step = 4 ∧ (advanceStep dbStep4 0 "u").2.step = 4 :=
  ⟨by decide, (c9_advanceStep_caps_at_four dbStep4 0 "u").2.2.2 (by decide)⟩

/-- C10: `updateSession` for a user with no stored session ignores the
supplied patch: it creates and returns a brand-new step-1 session with
null name, feedback and profileImageUrl. -/
theorem c10_updateSession_missing (db : DB) (now : Int) (phone : String) (u : Updates)
    (h : getConversationSession db phone = none) :
    updateSession db now phone u = createSession db now phone ∧
    (updateSession db now phone u).2.step = 1 ∧
    (updateSession db now phone u).2.name = none ∧
    (updateSession db now phone u).2.feedback = none ∧
    (updateSession db now phone u).2.profileImageUrl = none := by
  have heq : updateSession db now phone u = createSession db now phone := by
    unfold updateSession
    rw [h]
  refine ⟨heq, ?_, ?_, ?_, ?_⟩ <;> rw [heq] <;> unfold createSession
  · rw [save_step]
  · rw [save_name]
    rfl
  · rw [save_feedback_field]
    rfl
  · rw [save_profileImageUrl]
    rfl

/-- The empty database. -/
def dbEmpty : DB := { sessions := [], feedbacks := [] }

/-- A patch carrying data, used to show patches are dropped on a missing
session. -/
def patchX : Updates := { name := some (some "X"), step := some 3 }

/-- C10 witness: updating the non-existent session of an empty store with
a non-trivial patch just creates a fresh step-1 session. -/
theorem c10_witness :
    getConversationSession dbEmpty "u" = none ∧
    updateSession dbEmpty 0 "u" patchX = createSession dbEmpty 0 "u" ∧
    (updateSession dbEmpty 0 "u" patchX).2.step = 1 :=
  ⟨by decide,
   (c10_updateSession_missing dbEmpty 0 "u" patchX (by decide)).1,
   (c10_updateSession_missing dbEmpty 0 "u" patchX (by decide)).2.1⟩

/-- C7: reading a session whose `lastActivity` is more than the TTL in the
past behaves exactly like reading with no stored session: the stale row is
discarded, the read equals the read on the store with the row deleted, and
a fresh step-1 session with empty collected fields is returned. -/
theorem c7_expired_equals_absent (db : DB) (now : Int) (phone : String) (s : Session)
    (h : getConversationSession db phone = some s)
    (hexp : isSessionExpired now s = true) :
    getSession db now phone = getSession (deleteConversationSession db phone) now phone ∧
    (getSession db now phone).2.step = 1 ∧
    (getSession db now phone).2.name = none ∧
    (getSession db now phone).2.feedback = none ∧
    (getSession db now phone).2.whatsappImageId = none ∧
    (getSession db now phone).2.profileImageUrl = none := by
  have h1 : getSession db now phone
      = createSession (deleteConversationSession db phone) now phone :=
    getSession_of_expired h hexp
  have h2 : getSession (deleteConversationSession db phone) now phone
      = createSession (deleteConversationSession db phone) now phone :=
    getSession_of_none now (getConversationSession_delete db phone)
  refine ⟨h1.trans h2.symm, ?_, ?_, ?_, ?_, ?_⟩ <;> rw [h1] <;> unfold createSession
  · rw [save_step]
  · rw [save_name]
    rfl
  · rw [save_feedback_field]
    rfl
  · rw [save_whatsappImageId]
    rfl
  · rw [save_profileImageUrl]
    rfl

/-- A stale uncompleted session for user "u" (idle since time 0). -/
def staleSessionU : Session :=
  { userPhone := "u", step := 2, name := some "Bob",
    feedback := none, whatsappImageId := none,
    profileImageUrl := none, isCompleted := false,
    createdAt := 0, lastActivity := 0 }

/-- A database holding only `staleSessionU`. -/
def dbStale : DB := { sessions := [staleSessionU], feedbacks := [] }

/-- C7 witness: one millisecond past the TTL, reading "u" in `dbStale`
equals reading after deleting the row, and yields a fresh session. -/
theorem c7_witness :
    isSessionExpired (sessionTimeout + 1) staleSessionU = true ∧
    getSession dbStale (sessionTimeout + 1) "u"
      = getSession (deleteConversationSession dbStale "u") (sessionTimeout + 1) "u" ∧
    (getSession dbStale (sessionTimeout + 1) "u").2.step = 1 :=
  ⟨by decide,
   (c7_expired_equals_absent dbStale (sessionTimeout + 1) "u" staleSessionU
     (by decide) (by decide)).1,
   (c7_expired_equals_absent dbStale (sessionTimeout + 1) "u" staleSessionU
     (by decide) (by decide)).2.1⟩

/-- C8: one cleanup sweep keeps a stored session iff it is not (idle past
the 12-hour cutoff and uncompleted); equivalently it deletes exactly the
uncompleted sessions with `lastActivity` strictly older than the cutoff,
and never deletes a completed or recently-active session. -/
theorem c8_cleanup_exact (db : DB) (now : Int) :
    ∀ s ∈ db.sessions,
      (s ∈ (cleanupExpiredSessions db now).1.sessions
        ↔ ¬(s.lastActivity < now - 12 * hourMs ∧ s.isCompleted = false)) := by
  intro s hs
  simp only [cleanupExpiredSessions, prismaCleanupExpiredSessions, List.mem_filter]
  constructor
  · rintro ⟨-, hkeep⟩ ⟨hidle, hcomp⟩
    rw [Bool.not_eq_true', Bool.and_eq_false_iff] at hkeep
    rcases hkeep with hk | hk
    · rw [decide_eq_false_iff_not] at hk
      exact hk hidle
    · rw [hcomp] at hk
      simp at hk
  · intro hnot
    refine ⟨hs, ?_⟩
    by_cases hidle : s.lastActivity < now - 12 * hourMs <;> cases hc : s.isCompleted
    · exact absurd ⟨hidle, hc⟩ hnot
    · simp [hidle, hc]
    · simp [hidle, hc]
    · simp [hidle, hc]

/-- A stale uncompleted session (user "u"). -/
def sweepStaleU : Session :=
  { userPhone := "u", step := 2, name := none, feedback := none,
    whatsappImageId := none, profileImageUrl := none,
    isCompleted := false, createdAt := 0, lastActivity := 0 }

/-- A stale but completed session (user "v"). -/
def sweepDoneV : Session :=
  { userPhone := "v", step := 4, name := none, feedback := none,
    whatsappImageId := none, profileImageUrl := none,
    isCompleted := true, createdAt := 0, lastActivity := 0 }

/-- A fresh uncompleted session (user "w"). -/
def sweepFreshW : Session :=
  { userPhone := "w", step := 1, name := none, feedback := none,
    whatsappImageId := none, profileImageUrl := none,
    isCompleted := false, createdAt := 0, lastActivity := sessionTimeout }

/-- A database with one stale uncompleted, one stale completed and one
fresh uncompleted session. -/
def dbSweep : DB :=
  { sessions := [sweepStaleU, sweepDoneV, sweepFreshW], feedbacks := [] }

/-- C8 witness: sweeping `dbSweep` at one millisecond past the TTL deletes
exactly the stale uncompleted session and keeps the completed and the
fresh ones. -/
theorem c8_witness :
    ¬(sweepStaleU ∈ (cleanupExpiredSessions dbSweep (sessionTimeout + 1)).1.sessions) ∧
    sweepDoneV ∈ (cleanupExpiredSessions dbSweep (sessionTimeout + 1)).1.sessions ∧
    sweepFreshW ∈ (cleanupExpiredSessions dbSweep (sessionTimeout + 1)).1.sessions := by
  refine ⟨?_, ?_, ?_⟩
  · intro hmem
    exact ((c8_cleanup_exact dbSweep (sessionTimeout + 1) sweepStaleU
      (by decide)).1 hmem) (by decide)
  · exact (c8_cleanup_exact dbSweep (sessionTimeout + 1) sweepDoneV
      (by decide)).2 (by decide)
  · exact (c8_cleanup_exact dbSweep (sessionTimeout + 1) sweepFreshW
      (by decide)).2 (by decide)

/-- C5: whatever the user's stored state (including no session), a text
message whose lowercased and trimmed body equals the reserved start
keyword resets the stored session to step 1 with every collected field
cleared, sends exactly the opening prompt, enqueues no task and creates
no record. -/
theorem c5_start_keyword_resets (db : DB) (now : Int) (msg : Message) (body : String)
    (hkind : msg.kind = .text) (hbody : msg.textBody = some body)
    (hkey : jsTrim (jsToLower body) = startKeyword) :
    (handleIncomingMessage db now msg).sent = [(msg.sender, getTemplate "greeting")] ∧
    (handleIncomingMessage db now msg).tasks = [] ∧
    (handleIncomingMessage db now msg).db.feedbacks = db.feedbacks ∧
    ∃ σ, getConversationSession (handleIncomingMessage db now msg).db msg.sender = some σ ∧
      σ.step = 1 ∧ σ.name = none ∧ σ.feedback = none ∧
      σ.whatsappImageId = none ∧ σ.profileImageUrl = none ∧ σ.isCompleted = false := by
  have hred : handleIncomingMessage db now msg
      = { db := (createSession db now msg.sender).1
          sent := [(msg.sender, getTemplate "greeting")]
          tasks := [] } := by
    unfold handleIncomingMessage
    rw [hkind, hbody]
    simp [hkey]
  rw [hred]
  refine ⟨rfl, rfl, createSession_feedbacks .., ?_⟩
  refine ⟨_, getConversationSession_save db now _, ?_, ?_, ?_, ?_, ?_, ?_⟩
  · rw [save_step]
  · rw [save_name]
    rfl
  · rw [save_feedback_field]
    rfl
  · rw [save_whatsappImageId]
    rfl
  · rw [save_profileImageUrl]
    rfl
  · rw [save_isCompleted]

/-- A database holding one mid-flow session for user "u" at step 3 with
collected data. -/
def dbMidFlow : DB :=
  { sessions := [{ userPhone := "u", step := 3, name := some "Alice",
                   feedback := none, whatsappImageId := none,
                   profileImageUrl := none, isCompleted := false,
                   createdAt := 0, lastActivity := 0 }]
    feedbacks := [] }

/-- C5 witness: the keyword (in mixed case with spaces) sent mid-flow
resets the session of `dbMidFlow` and yields the opening prompt. -/
theorem c5_witness :
    jsTrim (jsToLower "  Share Your Thoughts ") = startKeyword ∧
    (handleIncomingMessage dbMidFlow 5 { sender := "u", kind := .text, textBody := some "  Share Your Thoughts " }).sent
      = [("u", getTemplate "greeting")] :=
  ⟨by decide,
   (c5_start_keyword_resets dbMidFlow 5
     { sender := "u", kind := .text, textBody := some "  Share Your Thoughts " }
     "  Share Your Thoughts " rfl rfl (by decide)).1⟩

/-- C6: at each of the four conversation steps, an inbound message of the
wrong input kind leaves the database (hence the session's state and
collected fields) unchanged and sends exactly the guidance defined for
that step's required kind: steps 1 and 4 (text expected) answer with the
`needText` template, step 3 (image expected) with the `needImage`
template, and step 2 (button/text choice expected) with the literal
button guidance. -/
theorem c6_wrong_kind_guidance (db : DB) (now : Int) (msg : Message) (phone : String)
    (session : Session) :
    ((msg.kind ≠ .text ∨ msg.textBody = none) →
      handleNameCollection db now msg phone
        = { db := db, sent := [(phone, getTemplate "needText")], tasks := [] }) ∧
    (¬(msg.kind = .interactive ∧ msg.buttonReplyId ≠ none) →
     ¬(msg.kind = .text ∧ msg.textBody ≠ none) →
      handleYesNoChoice db now msg phone session
        = { db := db
            sent := [(phone, "Please click one of the buttons or reply with \"Yes\" or \"No\".")]
            tasks := [] }) ∧
    ((msg.kind ≠ .image ∨ msg.imageId = none) →
      handleImageCollection db now msg phone
        = { db := db, sent := [(phone, getTemplate "needImage")], tasks := [] }) ∧
    ((msg.kind ≠ .text ∨ msg.textBody = none) →
      handleFeedbackCollection db now msg phone session
        = { db := db, sent := [(phone, getTemplate "needText")], tasks := [] }) := by
  obtain ⟨snd, kind, tb, im, br⟩ := msg
  refine ⟨?_, ?_, ?_, ?_⟩
  · intro h
    unfold handleNameCollection
    cases kind <;> cases tb <;> simp_all
  · intro h1 h2
    unfold handleYesNoChoice
    cases kind <;> cases tb <;> cases br <;> simp_all
  · intro h
    unfold handleImageCollection
    cases kind <;> cases im <;> simp_all
  · intro h
    unfold handleFeedbackCollection
    cases kind <;> cases tb <;> simp_all

/-- C6 witness: an image sent at step 1 (text expected) to the store
`dbStale`-shaped session leaves the database unchanged and yields the
`needText` guidance. -/
theorem c6_witness :
    handleNameCollection dbMidFlow 5 { sender := "u", kind := .image, imageId := some "im1" } "u"
      = { db := dbMidFlow, sent := [("u", getTemplate "needText")], tasks := [] } :=
  (c6_wrong_kind_guidance dbMidFlow 5
    { sender := "u", kind := .image, imageId := some "im1" } "u"
    { userPhone := "u", step := 1, name := none, feedback := none,
      whatsappImageId := none, profileImageUrl := none, isCompleted := false,
      createdAt := 0, lastActivity := 0 }).1 (Or.inl (by decide))

/-- `saveFeedback` appends exactly its one new record. -/
lemma saveFeedback_feedbacks (db : DB) (now : Int) (d : FeedbackData) :
    (saveFeedback db now d).1.feedbacks = db.feedbacks ++ [(saveFeedback db now d).2] := rfl

/-- C3: completing a live session persists exactly one new record —
carrying the collected name, feedback text and media URL (through the JS
null coercion) — and then removes the session from the store; completing
a missing session writes nothing; and neither a cleanup sweep nor a
`getSession` read (the expiry path included) ever creates a record. -/
theorem c3_completion_one_record (db : DB) (now : Int) (phone : String) (s : Session)
    (h : getConversationSession db phone = some s) :
    (∃ fb, (completeSession db now phone).1.feedbacks = db.feedbacks ++ [fb] ∧
      fb.userPhone = s.userPhone ∧ fb.name = s.name ∧ fb.feedback = s.feedback ∧
      fb.profileImageUrl = orNull s.profileImageUrl) ∧
    getConversationSession (completeSession db now phone).1 phone = none ∧
    (∀ db' now' p', getConversationSession db' p' = none →
      completeSession db' now' p' = (db', none)) ∧
    (∀ db' now', (cleanupExpiredSessions db' now').1.feedbacks = db'.feedbacks) ∧
    (∀ db' now' p', (getSession db' now' p').1.feedbacks = db'.feedbacks) := by
  have hred : completeSession db now phone
      = (deleteConversationSession
          ((saveConversationSession
            ((saveFeedback db now
              { userPhone := s.userPhone
                name := s.name
                feedback := s.feedback
                profileImageUrl := s.profileImageUrl
                sessionDuration := some (durationSeconds now s.createdAt) }).1) now
            { sessionToData s with isCompleted := true }).1) phone, some s) := by
    unfold completeSession
    rw [h]
  refine ⟨?_, ?_, ?_, ?_, ?_⟩
  · refine ⟨(saveFeedback db now
      { userPhone := s.userPhone
        name := s.name
        feedback := s.feedback
        profileImageUrl := s.profileImageUrl
        sessionDuration := some (durationSeconds now s.createdAt) }).2, ?_, rfl, rfl, rfl, rfl⟩
    rw [hred]
    show (deleteConversationSession _ _).feedbacks = _
    rw [delete_feedbacks, save_feedbacks, saveFeedback_feedbacks]
  · rw [hred]
    exact getConversationSession_delete ..
  · intro db' now' p' h'
    unfold completeSession
    rw [h']
  · intro db' now'
    rfl
  · intro db' now' p'
    exact getSession_feedbacks ..

/-- C3 witness: completing the live step-4 session of `dbStep4` leaves
exactly one record and no session for "u". -/
theorem c3_witness :
    getConversationSession (completeSession dbStep4 5 "u").1 "u" = none ∧
    (completeSession dbStep4 5 "u").1.feedbacks.length = 1 :=
  ⟨(c3_completion_one_record dbStep4 5 "u"
     { userPhone := "u", step := 4, name := some "Alice", feedback := none,
       whatsappImageId := none, profileImageUrl := none, isCompleted := false,
       createdAt := 0, lastActivity := 0 } (by decide)).2.1,
   by decide⟩

/-- After `advanceStep` on a live stored session `t`, the stored session
is the returned one, with the step advanced to `min(t.step + 1, 4)` and
the other fields carried over through the JS null coercion. -/
lemma advanceStep_of_found {db : DB} {phone : String} {t : Session} {now : Int}
    (h : getConversationSession db phone = some t)
    (hlive : isSessionExpired now t = false) :
    ∃ σ, getConversationSession (advanceStep db now phone).1 phone = some σ ∧
      σ = (advanceStep db now phone).2 ∧
      σ.step = min (t.step + 1) 4 ∧
      σ.name = orNull t.name ∧ σ.feedback = orNull t.feedback ∧
      σ.whatsappImageId = orNull t.whatsappImageId ∧
      σ.profileImageUrl = orNull t.profileImageUrl ∧
      σ.isCompleted = t.isCompleted ∧ σ.lastActivity = now := by
  have hph : t.userPhone = phone := userPhone_of_found h
  have hget := getSession_of_live h hlive
  have hfindA := getConversationSession_save db now (sessionToData t)
  rw [show (sessionToData t).userPhone = phone from hph] at hfindA
  unfold advanceStep
  rw [hget]
  rw [updateSession_of_found now _ hfindA]
  have hfinal := getConversationSession_save (saveConversationSession db now (sessionToData t)).1 now
    (mergeUpdates (saveConversationSession db now (sessionToData t)).2
      { step := some (min (t.step + 1) 4) })
  have hphA : (mergeUpdates (saveConversationSession db now (sessionToData t)).2
      { step := some (min (t.step + 1) 4) }).userPhone = phone := by
    show (saveConversationSession db now (sessionToData t)).2.userPhone = phone
    rw [save_userPhone]
    exact hph
  rw [hphA] at hfinal
  refine ⟨_, hfinal, rfl, ?_, ?_, ?_, ?_, ?_, ?_, ?_⟩
  · rw [save_step]
    rfl
  · rw [save_name]
    show orNull (saveConversationSession db now (sessionToData t)).2.name = _
    rw [save_name]
    show orNull (orNull t.name) = _
    exact orNull_idem _
  · rw [save_feedback_field]
    show orNull (saveConversationSession db now (sessionToData t)).2.feedback = _
    rw [save_feedback_field]
    show orNull (orNull t.feedback) = _
    exact orNull_idem _
  · rw [save_whatsappImageId]
    show orNull (saveConversationSession db now (sessionToData t)).2.whatsappImageId = _
    rw [save_whatsappImageId]
    show orNull (orNull t.whatsappImageId) = _
    exact orNull_idem _
  · rw [save_profileImageUrl]
    show orNull (saveConversationSession db now (sessionToData t)).2.profileImageUrl = _
    rw [save_profileImageUrl]
    show orNull (orNull t.profileImageUrl) = _
    exact orNull_idem _
  · rw [save_isCompleted]
    show (saveConversationSession db now (sessionToData t)).2.isCompleted = _
    rw [save_isCompleted]
    rfl
  · exact save_lastActivity ..

/-- A session saved by the upsert carries `lastActivity = now`, so it is
never expired at the same instant. -/
lemma save_not_expired (db : DB) (now : Int) (d : SessionData) :
    isSessionExpired now (saveConversationSession db now d).2 = false := by
  unfold isSessionExpired
  rw [save_lastActivity, sub_self]
  decide

/-- C1 counterexample: with a live step-3 (image-collection) session for
"u" holding name "Alice", an inbound image advances the session to step 4
— still stored, not completed — persists no record, and sends the
missing-template fallback text rather than the completion message.  This
contradicts the claim that the image-collection state completes, persists
a Record, emits the completion message, and deletes the session. -/
theorem c1_counterexample :
    (handleIncomingMessage dbMidFlow 5
        { sender := "u", kind := .image, imageId := some "img1" }).db.feedbacks = [] ∧
    getConversationSession
        (handleIncomingMessage dbMidFlow 5
          { sender := "u", kind := .image, imageId := some "img1" }).db "u"
      = some { userPhone := "u", step := 4, name := some "Alice", feedback := none,
               whatsappImageId := some "img1", profileImageUrl := none,
               isCompleted := false, createdAt := 0, lastActivity := 5 } ∧
    (handleIncomingMessage dbMidFlow 5
        { sender := "u", kind := .image, imageId := some "img1" }).sent
      = [("u", "Sorry, something went wrong. Please try again by sending 'hi'.")] ∧
    ¬((handleIncomingMessage dbMidFlow 5
        { sender := "u", kind := .image, imageId := some "img1" }).sent
      = [("u", getTemplate "completed" (some "Alice"))]) := by
  decide

/-- C1 amended: handling an image in the image-collection state (step 3)
stores the WhatsApp image id, nulls the pending image URL, advances the
session to step 4 (feedback collection) — the session stays stored and
uncompleted — sends the `profilePictureReceived` template (which resolves
to the missing-template fallback), and enqueues the detached upload task;
no record is persisted and the session is not deleted at this point (the
record is only written later, when feedback completes the session). -/
theorem c1_image_collection_amended (db : DB) (now : Int) (msg : Message) (phone : String)
    (s : Session) (imgId : String)
    (hk : msg.kind = .image) (hi : msg.imageId = some imgId)
    (h : getConversationSession db phone = some s) (hstep : s.step = 3) :
    (handleImageCollection db now msg phone).tasks = [(imgId, phone)] ∧
    (handleImageCollection db now msg phone).sent
      = [(phone, getTemplate "profilePictureReceived")] ∧
    (handleImageCollection db now msg phone).db.feedbacks = db.feedbacks ∧
    ∃ σ, getConversationSession (handleImageCollection db now msg phone).db phone = some σ ∧
      σ.step = 4 ∧ σ.isCompleted = s.isCompleted ∧
      σ.whatsappImageId = orNull (some imgId) ∧ σ.profileImageUrl = none ∧
      σ.name = orNull s.name ∧ σ.feedback = orNull s.feedback := by
  have hred : handleImageCollection db now msg phone
      = { db := (advanceStep (updateSession db now phone
            { whatsappImageId := some (some imgId), profileImageUrl := some none }).1
            now phone).1
          sent := [(phone, getTemplate "profilePictureReceived")]
          tasks := [(imgId, phone)] } := by
    unfold handleImageCollection
    rw [hk, hi]
  rw [hred]
  have hph : s.userPhone = phone := userPhone_of_found h
  have hupd := updateSession_of_found now
    { whatsappImageId := some (some imgId), profileImageUrl := some none } h
  refine ⟨rfl, rfl, ?_, ?_⟩
  · show (advanceStep _ now phone).1.feedbacks = db.feedbacks
    rw [advanceStep_feedbacks, updateSession_feedbacks]
  · rw [hupd]
    have hfind1 := getConversationSession_save db now
      (mergeUpdates s { whatsappImageId := some (some imgId), profileImageUrl := some none })
    rw [show (mergeUpdates s
        { whatsappImageId := some (some imgId), profileImageUrl := some none }).userPhone
        = phone from hph] at hfind1
    obtain ⟨σ, hfind, hret, hstep2, hname, hfb, hwid, hurl, hcomp, hla⟩ :=
      advanceStep_of_found hfind1 (save_not_expired db now _)
    refine ⟨σ, hfind, ?_, ?_, ?_, ?_, ?_, ?_⟩
    · rw [hstep2, save_step]
      show min (s.step + 1) 4 = 4
      rw [hstep]
      decide
    · rw [hcomp, save_isCompleted]
      rfl
    · rw [hwid, save_whatsappImageId]
      exact orNull_idem _
    · rw [hurl, save_profileImageUrl]
      rfl
    · rw [hname, save_name]
      exact orNull_idem _
    · rw [hfb, save_feedback_field]
      exact orNull_idem _

/-- C1 amended witness: the concrete image message on `dbMidFlow`
enqueues the upload task and leaves a stored, uncompleted step-4
session. -/
theorem c1_amended_witness :
    (handleImageCollection dbMidFlow 5
        { sender := "u", kind := .image, imageId := some "img1" } "u").tasks
      = [("img1", "u")] ∧
    (handleImageCollection dbMidFlow 5
        { sender := "u", kind := .image, imageId := some "img1" } "u").db.feedbacks = [] :=
  ⟨(c1_image_collection_amended dbMidFlow 5
      { sender := "u", kind := .image, imageId := some "img1" } "u"
      { userPhone := "u", step := 3, name := some "Alice", feedback := none,
        whatsappImageId := none, profileImageUrl := none, isCompleted := false,
        createdAt := 0, lastActivity := 0 } "img1" rfl rfl (by decide) rfl).1,
   (c1_image_collection_amended dbMidFlow 5
      { sender := "u", kind := .image, imageId := some "img1" } "u"
      { userPhone := "u", step := 3, name := some "Alice", feedback := none,
        whatsappImageId := none, profileImageUrl := none, isCompleted := false,
        createdAt := 0, lastActivity := 0 } "img1" rfl rfl (by decide) rfl).2.2.1⟩

/-- A database with one persisted record for "u" (no media URL yet) and no
session — the post-completion situation the async pipeline claim assumes. -/
def dbRecordOnly : DB :=
  { sessions := []
    feedbacks := [{ userPhone := "u", name := some "Alice",
                    feedback := some "Great", profileImageUrl := none,
                    whatsappImageId := none, imageStoragePath := none,
                    sessionDuration := some 7, createdAt := 0 }] }

/-- C2 counterexample: with the session for "u" already gone and a
persisted record lacking its media URL, a fully successful pipeline run
leaves the record unpatched (its `profileImageUrl` is still null); the
run instead creates a fresh junk session that does not even carry the
uploaded URL.  This contradicts the claim that the previously persisted
record is patched with the resulting durable URI. -/
theorem c2_counterexample :
    (processImageUploadAsync dbRecordOnly 9 "u" (.success "https://cdn/x")).1.feedbacks
      = dbRecordOnly.feedbacks ∧
    ((processImageUploadAsync dbRecordOnly 9 "u" (.success "https://cdn/x")).1.feedbacks.map
        (fun r => r.profileImageUrl)) = [none] ∧
    ((getConversationSession
        (processImageUploadAsync dbRecordOnly 9 "u" (.success "https://cdn/x")).1 "u").map
        (fun σ => σ.profileImageUrl)) = some none := by
  decide

/-- C2 amended: the pipeline's success path never touches records — it is
exactly `updateSession` setting the session's `profileImageUrl` to the
uploaded public URL.  When a live session for the user still exists it is
patched with the URL (the record only receives the URL later, if feedback
completes the session); the record store is unchanged on both the success
and the failure path. -/
theorem c2_pipeline_patches_session (db : DB) (now : Int) (phone url : String) :
    processImageUploadAsync db now phone (.success url)
      = updateSession db now phone { profileImageUrl := some (some url) } ∧
    (processImageUploadAsync db now phone (.success url)).1.feedbacks = db.feedbacks ∧
    (∀ s, getConversationSession db phone = some s →
      ∃ σ, getConversationSession
          (processImageUploadAsync db now phone (.success url)).1 phone = some σ ∧
        σ.profileImageUrl = orNull (some url) ∧ σ.step = s.step) ∧
    (∀ e, (processImageUploadAsync db now phone (.failure e)).1.feedbacks = db.feedbacks) := by
  refine ⟨rfl, updateSession_feedbacks .., ?_, fun e => updateSession_feedbacks ..⟩
  intro s h
  have hph : s.userPhone = phone := userPhone_of_found h
  show ∃ σ, getConversationSession
      (updateSession db now phone { profileImageUrl := some (some url) }).1 phone = some σ ∧ _
  rw [updateSession_of_found now _ h]
  have hfind := getConversationSession_save db now
    (mergeUpdates s { profileImageUrl := some (some url) })
  rw [show (mergeUpdates s { profileImageUrl := some (some url) }).userPhone = phone
    from hph] at hfind
  refine ⟨_, hfind, ?_, ?_⟩
  · rw [save_profileImageUrl]
    rfl
  · rw [save_step]
    rfl

/-- C2 amended witness: on `dbMidFlow` (live step-3 session), the
successful pipeline run patches the session with the URL and leaves the
record store empty. -/
theorem c2_witness :
    (processImageUploadAsync dbMidFlow 5 "u" (.success "https://cdn/x")).1.feedbacks = [] ∧
    ∃ σ, getConversationSession
        (processImageUploadAsync dbMidFlow 5 "u" (.success "https://cdn/x")).1 "u" = some σ ∧
      σ.profileImageUrl = orNull (some "https://cdn/x") ∧ σ.step = 3 :=
  ⟨(c2_pipeline_patches_session dbMidFlow 5 "u" "https://cdn/x").2.1,
   (c2_pipeline_patches_session dbMidFlow 5 "u" "https://cdn/x").2.2.1
     { userPhone := "u", step := 3, name := some "Alice", feedback := none,
       whatsappImageId := none, profileImageUrl := none, isCompleted := false,
       createdAt := 0, lastActivity := 0 } (by decide)⟩

/-- A database with one live step-1 session for "u" with nothing collected. -/
def dbNameStep : DB :=
  { sessions := [{ userPhone := "u", step := 1, name := none, feedback := none,
                   whatsappImageId := none, profileImageUrl := none,
                   isCompleted := false, createdAt := 0, lastActivity := 0 }]
    feedbacks := [] }

/-- The plain text message "Alice" from user "u". -/
def msgAlice : Message := { sender := "u", kind := .text, textBody := some "Alice" }

/-- C4 counterexample: handling "Alice" at step 1 with the store failing
on its fifth operation sends the generic apology, but the session name
update committed by the fourth operation is not rolled back: the stored
session now carries name "Alice" and differs from its pre-event value.
This contradicts the claim that no partial state mutation is committed. -/
theorem c4_counterexample :
    (handleIncomingMessageTop dbNameStep 4 1 msgAlice).2 = false ∧
    (handleIncomingMessageTop dbNameStep 4 1 msgAlice).1.sent
      = [("u", "Sorry, something went wrong. Please try again by sending 'hi'.")] ∧
    getConversationSession (handleIncomingMessageTop dbNameStep 4 1 msgAlice).1.db "u"
      = some { userPhone := "u", step := 1, name := some "Alice", feedback := none,
               whatsappImageId := none, profileImageUrl := none, isCompleted := false,
               createdAt := 0, lastActivity := 1 } ∧
    ¬(getConversationSession (handleIncomingMessageTop dbNameStep 4 1 msgAlice).1.db "u"
        = getConversationSession dbNameStep "u") := by
  decide

/-- C4 amended: whenever a store operation fails while handling an
inbound event, the user receives the generic apology as the last outbound
message of the event; however, store writes committed before the failing
operation are not rolled back, so the stored session may differ from its
pre-event value. -/
theorem c4_store_failure_apology (db : DB) (fuel : Nat) (now : Int) (msg : Message)
    (hfail : (handleIncomingMessageTop db fuel now msg).2 = false) :
    (handleIncomingMessageTop db fuel now msg).1.sent.getLast?
      = some (msg.sender,
          "Sorry, something went wrong. Please try again by sending 'hi'.") := by
  unfold handleIncomingMessageTop at hfail ⊢
  cases hr : handleIncomingMessageF now msg { db := db, fuel := fuel, sent := [] } with
  | mk st res =>
    cases res with
    | some u =>
      rw [hr] at hfail
      simp at hfail
    | none =>
      show (st.sent ++ [(msg.sender, getTemplate "systemError")]).getLast? = _
      rw [List.getLast?_concat]
      rfl

/-- C4 amended witness: the concrete failing run on `dbNameStep` ends with
the apology message. -/
theorem c4_witness :
    (handleIncomingMessageTop dbNameStep 4 1 msgAlice).2 = false ∧
    (handleIncomingMessageTop dbNameStep 4 1 msgAlice).1.sent.getLast?
      = some ("u", "Sorry, something went wrong. Please try again by sending 'hi'.") :=
  ⟨by decide, c4_store_failure_apology dbNameStep 4 1 msgAlice (by decide)⟩

end FeedbackFullStack
